import Mathlib

/-!
Shallow embedding of the `liveData` module (file `liveData/__init__.py`) of the
MarketData repository: the `liveDataServer` class, whose constructor wires up a
market-data subscription and whose async method `streamDataHandler` merges each
incoming quote into the instance dictionary `self.data` and relays it over a
fresh TCP socket as a JSON document.

Numbers on the wire are Python floats printed in their decimal `repr` form by
`json.dumps`; we embed them as exact scaled decimals (`DecNum`), which agrees
with the decimal text that appears on the wire for every value considered here.
Strings are embedded as their character lists where the wire format is
concerned.
-/

/-- A decimal number `mantissa / 10 ^ shift`, the exact form in which a Python
float is printed by `json.dumps` (for example `50000.5` is `⟨500005, 1⟩`). -/
structure DecNum where
  mantissa : Int
  shift : Nat
  deriving DecidableEq, Repr

/-- Decimal digit characters of a natural number, most significant first. -/
def natDigitChars (n : Nat) : List Char :=
  Nat.toDigits 10 n

/-- Render a `DecNum` the way Python `repr`/`json.dumps` prints the float it
denotes: the mantissa's digits with a decimal point inserted `shift` places
from the right, zero-padded so at least one digit precedes the point. -/
def renderDecNum (d : DecNum) : List Char :=
  let ds := natDigitChars d.mantissa.natAbs
  let ds := List.replicate (d.shift + 1 - ds.length) '0' ++ ds
  let sign := if d.mantissa < 0 then ['-'] else []
  if d.shift = 0 then sign ++ ds
  else sign ++ ds.take (ds.length - d.shift) ++ '.' :: ds.drop (ds.length - d.shift)

/-- Longest prefix of decimal digits, together with the rest of the input. -/
def spanDigits : List Char → List Char × List Char
  | [] => ([], [])
  | c :: cs =>
    if c.isDigit then
      let p := spanDigits cs
      (c :: p.1, p.2)
    else ([], c :: cs)

/-- Numeric value of a list of decimal digit characters. -/
def digitsToNat (ds : List Char) : Nat :=
  ds.foldl (fun acc c => 10 * acc + (c.toNat - 48)) 0

/-- Parse a JSON number (optional sign, digits, optional fraction) into a
`DecNum`, returning the remaining input. -/
def parseNum (cs : List Char) : Option (DecNum × List Char) :=
  let p := match cs with
    | '-' :: rest => (true, rest)
    | _ => (false, cs)
  match spanDigits p.2 with
  | ([], _) => none
  | (ids, rest) =>
    match rest with
    | '.' :: rest2 =>
      match spanDigits rest2 with
      | ([], _) => none
      | (fds, rest3) =>
        let m : Int := Int.ofNat (digitsToNat (ids ++ fds))
        some ({ mantissa := if p.1 then -m else m, shift := fds.length }, rest3)
    | _ =>
      let m : Int := Int.ofNat (digitsToNat ids)
      some ({ mantissa := if p.1 then -m else m, shift := 0 }, rest)

mutual

/-- JSON values as produced by `json.dumps` on the dictionaries this module
builds: strings, numbers, and objects whose fields keep insertion order. -/
inductive JVal where
  | str (s : String)
  | num (d : DecNum)
  | obj (fields : JFields)

/-- Field lists of a JSON object, in insertion order. -/
inductive JFields where
  | nil
  | cons (k : String) (v : JVal) (rest : JFields)

end

/-- Render a string literal in JSON form. The strings this module ever emits
(symbol identifiers and fixed field names) contain no characters that
`json.dumps` would escape. -/
def renderStrLit (s : String) : List Char :=
  '"' :: s.data ++ ['"']

mutual

/-- Render a JSON value exactly as Python `json.dumps` does with its default
separators: item separator comma-space, key separator colon-space. -/
def renderJVal : JVal → List Char
  | JVal.str s => renderStrLit s
  | JVal.num d => renderDecNum d
  | JVal.obj fs => '{' :: renderJFields fs ++ ['}']

/-- Render an object's field list with the `json.dumps` default separators. -/
def renderJFields : JFields → List Char
  | JFields.nil => []
  | JFields.cons k v JFields.nil => renderStrLit k ++ ':' :: ' ' :: renderJVal v
  | JFields.cons k v (JFields.cons k2 v2 fs) =>
      renderStrLit k ++ ':' :: ' ' :: renderJVal v
        ++ ',' :: ' ' :: renderJFields (JFields.cons k2 v2 fs)

end

/-- JSON insignificant whitespace. -/
def isWs (c : Char) : Bool :=
  c = ' ' || c = '\n' || c = '\t' || c = '\r'

/-- Drop leading JSON whitespace. -/
def skipWs : List Char → List Char
  | [] => []
  | c :: cs => if isWs c then skipWs cs else c :: cs

/-- Parse the body of a string literal (the opening quote already consumed),
up to the closing quote. -/
def parseStrBody : List Char → Option (String × List Char)
  | [] => none
  | c :: cs =>
    if c = '"' then some ("", cs)
    else
      match parseStrBody cs with
      | some (s, rest) => some (String.mk (c :: s.data), rest)
      | none => none

mutual

/-- Generic recursive-descent JSON reader (the fragment a generic decoder
needs for documents made of objects, strings and numbers), with explicit
fuel bounding the nesting depth. -/
def parseJVal : Nat → List Char → Option (JVal × List Char)
  | 0, _ => none
  | fuel + 1, cs =>
    match skipWs cs with
    | '"' :: rest =>
      match parseStrBody rest with
      | some (s, rest2) => some (JVal.str s, rest2)
      | none => none
    | '{' :: rest =>
      match parseJFields fuel rest with
      | some (fs, rest2) => some (JVal.obj fs, rest2)
      | none => none
    | other =>
      match parseNum other with
      | some (d, rest2) => some (JVal.num d, rest2)
      | none => none

/-- Read an object's fields after the opening brace, through the closing
brace. -/
def parseJFields : Nat → List Char → Option (JFields × List Char)
  | 0, _ => none
  | fuel + 1, cs =>
    match skipWs cs with
    | '}' :: rest => some (JFields.nil, rest)
    | '"' :: rest =>
      match parseStrBody rest with
      | none => none
      | some (k, rest2) =>
        match skipWs rest2 with
        | ':' :: rest3 =>
          match parseJVal fuel rest3 with
          | none => none
          | some (v, rest4) =>
            match skipWs rest4 with
            | ',' :: rest5 =>
              match parseJFields fuel rest5 with
              | none => none
              | some (fs, rest6) => some (JFields.cons k v fs, rest6)
            | '}' :: rest5 => some (JFields.cons k v JFields.nil, rest5)
            | _ => none
        | _ => none
    | _ => none

end

/-- Decode one complete JSON document from text (a generic decoder such as
`json.loads`): one value, then nothing but whitespace. -/
def parseJson (cs : List Char) : Option JVal :=
  match parseJVal (cs.length + 1) cs with
  | some (j, rest) => if skipWs rest = [] then some j else none
  | none => none

/-- Field lookup in a JSON object's field list. -/
def jfGet : JFields → String → Option JVal
  | JFields.nil, _ => none
  | JFields.cons k v fs, key => if k = key then some v else jfGet fs key

/-- Field lookup in a JSON value (objects only). -/
def jGet (j : JVal) (k : String) : Option JVal :=
  match j with
  | JVal.obj fs => jfGet fs k
  | _ => none

/-- Python dictionary assignment `m[k] = v`: replace in place if the key is
present (insertion order kept), append otherwise. -/
def dictSet {α : Type} : List (String × α) → String → α → List (String × α)
  | [], k, v => [(k, v)]
  | (k', v') :: rest, k, v =>
    if k' = k then (k, v) :: rest else (k', v') :: dictSet rest k v

/-- Python dictionary lookup `m[k]`/`m.get(k)`. -/
def dictGet {α : Type} : List (String × α) → String → Option α
  | [], _ => none
  | (k', v) :: rest, k => if k' = k then some v else dictGet rest k

/-- One market quote as delivered to `streamDataHandler` (the `data` argument):
symbol and the four price/size fields, with `timestamp` already carried as the
epoch-seconds value that `datetime.timestamp(data.timestamp)` evaluates to. -/
structure Quote where
  symbol : String
  timestamp : DecNum
  ask_price : DecNum
  ask_size : DecNum
  bid_price : DecNum
  bid_size : DecNum
  deriving DecidableEq, Repr

/-- The per-symbol record the handler builds at src lines 113-122. -/
structure Entry where
  name : String
  time : DecNum
  ask_price : DecNum
  ask_size : DecNum
  bid_price : DecNum
  bid_size : DecNum
  deriving DecidableEq, Repr

/-- The record built from an event at src lines 114-121: `name` and `time`
from the event's symbol and timestamp, then the four price/size fields. -/
def entryOf (q : Quote) : Entry :=
  { name := q.symbol, time := q.timestamp,
    ask_price := q.ask_price, ask_size := q.ask_size,
    bid_price := q.bid_price, bid_size := q.bid_size }

/-- The instance dictionary `self.data`: a Python dict from top-level keys to
inner dicts from symbol to entry. Only the key `"Live Market Data"` is ever
assigned by the code. -/
abbrev Store : Type :=
  List (String × List (String × Entry))

/-- JSON image of an entry, with the keys in the insertion order of the dict
literal at src lines 114-121. -/
def jsonOfEntry (e : Entry) : JVal :=
  JVal.obj (JFields.cons "name" (JVal.str e.name)
    (JFields.cons "time" (JVal.num e.time)
    (JFields.cons "ask price" (JVal.num e.ask_price)
    (JFields.cons "ask size" (JVal.num e.ask_size)
    (JFields.cons "bid price" (JVal.num e.bid_price)
    (JFields.cons "bid size" (JVal.num e.bid_size) JFields.nil))))))

/-- JSON image of an inner symbol-to-entry dict. -/
def jfieldsOfSyms : List (String × Entry) → JFields
  | [] => JFields.nil
  | (s, e) :: rest => JFields.cons s (jsonOfEntry e) (jfieldsOfSyms rest)

/-- JSON image of `self.data`. -/
def jfieldsOfStore : Store → JFields
  | [] => JFields.nil
  | (k, m) :: rest => JFields.cons k (JVal.obj (jfieldsOfSyms m)) (jfieldsOfStore rest)

/-- JSON image of `self.data` as a value. -/
def jsonOfStore (st : Store) : JVal :=
  JVal.obj (jfieldsOfStore st)

/-- `serialize(self.data)` at src line 145: `json.dumps` imported as
`serialize`, rendering the instance dictionary to JSON text. -/
def serialize (st : Store) : List Char :=
  renderJVal (jsonOfStore st)

/-- The store update at src lines 111-122: the handler assigns a fresh
single-symbol inner dict to `self.data["Live Market Data"]`, replacing
whatever inner dict was there before. -/
def mergeQuote (st : Store) (q : Quote) : Store :=
  dictSet st "Live Market Data" [(q.symbol, entryOf q)]

/-- The store after a sequence of handler invocations has performed its
updates, starting from `st`. -/
def mergeAll (st : Store) (qs : List Quote) : Store :=
  qs.foldl mergeQuote st

/-- Python exceptions that the translated code can raise: `OSError`-family
transport failures from `socket.connect`/`socket.sendall` (tagged with the
failing operation), `NameError` for evaluating an undefined name, and the
spec's `ConfigurationError` class (present in the taxonomy; the translated
code never constructs it). -/
inductive PyErr where
  | oserror (op : String)
  | nameError (n : String)
  | configurationError (msg : String)
  deriving DecidableEq, Repr

/-- Values a Python function invocation can produce: the implicit `None` of
falling off the end, or a caught exception object handed back by
`return error`. -/
inductive PyVal where
  | none
  | errVal (e : PyErr)
  deriving DecidableEq, Repr

/-- How one Python statement or block finishes: normally with a value,
by raising an exception, or by executing a `return` statement. -/
inductive POutcome (α : Type) where
  | ok (a : α)
  | exn (e : PyErr)
  | ret (v : PyVal)
  deriving DecidableEq, Repr

/-- State of the socket object created by `socket(AF_INET, SOCK_STREAM)`:
freshly created, connected, or closed. -/
inductive SockState where
  | fresh
  | connected
  | closedS
  deriving DecidableEq, Repr

/-- Observable effects of one `streamDataHandler` send attempt: the socket
object's state, how many times `close()` was invoked, how many of those
invocations actually closed an open socket (CPython `socket.close` is a no-op
on an already-closed socket), how many times `sleep(1)` ran, and the payloads
successfully written by `sendall`. -/
structure SendState where
  sock : SockState
  closeCalls : Nat
  closeTransitions : Nat
  sleeps : Nat
  sent : List (List Char)
  deriving DecidableEq, Repr

/-- The send attempt starts with a freshly created socket and no effects. -/
def initSendState : SendState :=
  { sock := SockState.fresh, closeCalls := 0, closeTransitions := 0,
    sleeps := 0, sent := [] }

/-- State-and-outcome monad for the translated Python statements. -/
abbrev M (α : Type) : Type :=
  SendState → SendState × POutcome α

instance : Monad M where
  pure a := fun s => (s, POutcome.ok a)
  bind m f := fun s =>
    match m s with
    | (s', POutcome.ok a) => f a s'
    | (s', POutcome.exn e) => (s', POutcome.exn e)
    | (s', POutcome.ret v) => (s', POutcome.ret v)

/-- Whether the environment lets this attempt's transport operations succeed:
`connectOk` governs `server.connect`, `sendOk` governs `server.sendall`. -/
structure NetEnv where
  connectOk : Bool
  sendOk : Bool
  deriving DecidableEq, Repr

/-- `server.connect((self.host, self.port))` (src line 133): connects, or
raises a transport (`OSError`-family) exception. -/
def connectPrim (env : NetEnv) : M Unit := fun s =>
  if env.connectOk then ({ s with sock := SockState.connected }, POutcome.ok ())
  else (s, POutcome.exn (PyErr.oserror "connect"))

/-- `server.sendall(bytes(serialize(self.data), encoding="utf-8"))`
(src lines 145-146): writes the payload, or raises a transport exception. -/
def sendallPrim (env : NetEnv) (payload : List Char) : M Unit := fun s =>
  if env.sendOk then ({ s with sent := s.sent ++ [payload] }, POutcome.ok ())
  else (s, POutcome.exn (PyErr.oserror "sendall"))

/-- `server.close()` (src line 158, and the `with` block's `__exit__`): counts
the call, and closes the socket if it is not already closed (a second call is
a no-op, per CPython socket semantics). -/
def closePrim : M Unit := fun s =>
  match s.sock with
  | SockState.closedS => ({ s with closeCalls := s.closeCalls + 1 }, POutcome.ok ())
  | _ =>
    ({ s with sock := SockState.closedS, closeCalls := s.closeCalls + 1,
              closeTransitions := s.closeTransitions + 1 }, POutcome.ok ())

/-- `sleep(1)` (src line 159): the fixed one-time-unit pacing wait. -/
def sleepPrim : M Unit := fun s =>
  ({ s with sleeps := s.sleeps + 1 }, POutcome.ok ())

/-- Names bound at module level in `liveData/__init__.py`: the `import`
aliases (lines 21-45) and the class defined by the file. Note that the
`logging` imports bind `information` and `debugging` but no name
`exception`. -/
def moduleGlobals : List String :=
  ["socket", "AF_INET", "SOCK_STREAM", "ArgumentParser", "serialize", "sleep",
   "datetime", "Thread", "cryptogram", "SQL", "CryptoStream", "StocksStream",
   "basicConfig", "getLogger", "INFO", "DEBUG", "information", "debugging",
   "liveDataServer"]

/-- Python builtins the module's code could reach. -/
def pyBuiltins : List String :=
  ["str", "bytes", "int", "print", "Exception"]

/-- Evaluating a bare name in the module and calling it: succeeds (we model
the loggers as effect-free) when the name is a module global or a builtin,
and raises `NameError` otherwise — which is what CPython does at src lines
137 and 151, where `exception(...)` is called but never imported. -/
def callGlobal (n : String) : M Unit := fun s =>
  if moduleGlobals.contains n || pyBuiltins.contains n then (s, POutcome.ok ())
  else (s, POutcome.exn (PyErr.nameError n))

/-- `return error` inside an `except` clause: finish the function with the
caught exception object as its value. -/
def returnVal {α : Type} (v : PyVal) : M α := fun s =>
  (s, POutcome.ret v)

/-- Python `try ... except Exception as error: ...` (no `finally`): a raised
exception runs the handler; normal completion and `return` pass through. -/
def tryExcept {α : Type} (body : M α) (handler : PyErr → M α) : M α := fun s =>
  match body s with
  | (s', POutcome.exn e) => handler e s'
  | r => r

/-- Python `try ... except Exception as error: ... finally: ...`: the handler
runs on a raised exception, and the `finally` block runs on every exit —
normal, exceptional (including an exception raised inside the handler), and
`return`. An exception or `return` in the `finally` block replaces the
pending outcome. -/
def tryExceptFinally {α : Type} (body : M α) (handler : PyErr → M α)
    (fin : M Unit) : M α := fun s =>
  let r := match body s with
    | (s', POutcome.exn e) => handler e s'
    | r => r
  match fin r.1 with
  | (s2, POutcome.ok _) => (s2, r.2)
  | (s2, POutcome.exn e) => (s2, POutcome.exn e)
  | (s2, POutcome.ret v) => (s2, POutcome.ret v)

/-- Python `with socket(AF_INET, SOCK_STREAM) as server:` (src line 127):
on every exit of the body — normal, exceptional, or `return` — the context
manager's `__exit__` calls `server.close()`, and the body's outcome is
propagated. -/
def withSocket {α : Type} (body : M α) : M α := fun s =>
  let r := body s
  let c := closePrim r.1
  (c.1, r.2)

/-- The connect/serialize/write portion of `streamDataHandler`
(src lines 125-159), statement by statement:
`debugging(...)`; then `with socket(...) as server:` wrapping
`debugging(...)`; `try: server.connect(...); debugging(...)` with
`except: exception(...); return error`; `debugging(...)`; then
`try: server.sendall(bytes(serialize(self.data), ...)); debugging(...)` with
`except: exception(...); return error` and `finally: server.close();
sleep(1)`. Falling off the end returns `None`. -/
def sendBody (env : NetEnv) (st : Store) : M PyVal := do
  callGlobal "debugging"
  withSocket (do
    callGlobal "debugging"
    tryExcept
      (do
        connectPrim env
        callGlobal "debugging")
      (fun e => do
        callGlobal "exception"
        returnVal (PyVal.errVal e))
    callGlobal "debugging"
    tryExceptFinally
      (do
        sendallPrim env (serialize st)
        callGlobal "debugging")
      (fun e => do
        callGlobal "exception"
        returnVal (PyVal.errVal e))
      (do
        closePrim
        sleepPrim)
    pure PyVal.none)

/-- `streamDataHandler(self, data)` (src lines 101-159): log the event
(`information`/`debugging`, imported and effect-free here), rewrite
`self.data["Live Market Data"]` to a fresh single-symbol dict for the event,
then run the connect/serialize/write portion against the updated store.
Returns the updated `self.data`, the send attempt's observable effects, and
the invocation's outcome. -/
def streamDataHandler (env : NetEnv) (st : Store) (q : Quote) :
    Store × SendState × POutcome PyVal :=
  let st := mergeQuote st q
  let r := sendBody env st initSendState
  (st, r.1, r.2)

/-- Execution context a piece of work runs on: the thread calling the
constructor, or the daemon thread the constructor creates. -/
inductive Ctx where
  | foreground
  | background
  deriving DecidableEq, Repr

/-- A Python expression in the `target=` argument position of `Thread(...)`:
a bare attribute reference (a callable object), or a call of one. Src lines
97-98 pass `target=self.client.run()` — a call expression, not a reference. -/
inductive PyExprT where
  | attrRef (obj meth : String)
  | callE (f : PyExprT)
  deriving DecidableEq, Repr

/-- The `target=` expression the constructor actually writes at src lines
97-98: `self.client.run()`. -/
def runTargetExpr : PyExprT :=
  PyExprT.callE (PyExprT.attrRef "client" "run")

/-- What a `target=` argument evaluates to: a callable object for the new
thread to invoke, or the plain value a call returned (for `client.run()`,
`None`). -/
inductive TargetVal where
  | callable (n : String)
  | plainVal
  deriving DecidableEq, Repr

/-- Python evaluation of the `target=` argument expression, in the caller's
context: keyword arguments are evaluated eagerly before `Thread` is
constructed, so a call expression executes the named callable right there in
the foreground and yields only its return value. -/
def evalArgActions : PyExprT → List (Ctx × String) × TargetVal
  | PyExprT.attrRef o m => ([], TargetVal.callable (o ++ "." ++ m))
  | PyExprT.callE f =>
    let p := evalArgActions f
    match p.2 with
    | TargetVal.callable n => (p.1 ++ [(Ctx.foreground, n)], TargetVal.plainVal)
    | TargetVal.plainVal => (p.1, TargetVal.plainVal)

/-- `Thread(target=t).start()`: the new background thread invokes the target
if it is a callable, and does nothing when the target is a plain non-callable
value such as `None`. -/
def threadStartActions : TargetVal → List (Ctx × String)
  | TargetVal.callable n => [(Ctx.background, n)]
  | TargetVal.plainVal => []

/-- The full trace of who runs `client.run` as a result of src lines 95-98:
argument evaluation in the constructor's context, then whatever the started
thread itself executes. -/
def constructorSpawnTrace : List (Ctx × String) :=
  (evalArgActions runTargetExpr).1 ++ threadStartActions (evalArgActions runTargetExpr).2

/-- One iteration of the subscribe loop at src lines 89-91:
`self.client.subscribe_quotes(self.streamDataHandler, str(asset.upper()))`,
recorded as the symbol string passed to the client. -/
def subscribeStep (calls : List String) (asset : String) : List String :=
  calls ++ [asset.toUpper]

/-- The whole subscribe loop at src lines 89-91, over the `symbols`
argument. The repository's code performs no validation of the list or of the
individual identifiers: every element is uppercased and handed to the
external client, and an empty list simply performs no iterations. -/
def subscribeLoop (symbols : List String) : List String :=
  symbols.foldl subscribeStep []

/-- The database path the constructor hard-codes into its
`queryCredentials` call at src line 81, ignoring both the `keyfile` and the
`database` parameters (whose default is the different path
`/server/database/admin.db`). -/
def adminCredentialPath : String :=
  "/server/database/admin/admin.db"

/-- The observable result of `liveDataServer.__init__` (src lines 60-98):
the stored constants, the initial `self.data` dictionary, the path passed to
the credential query, the symbols subscribed (in order), and the trace of who
executes `client.run`. -/
structure ServerInit where
  keyfile : String
  database : String
  host : String
  port : Nat
  data : Store
  credentialQuery : String
  subscribed : List String
  spawn : List (Ctx × String)
  deriving DecidableEq, Repr

/-- `liveDataServer.__init__(keyfile, database, symbols, host, port)`
(src lines 60-98), straight-line: store the five constants and `self.data =
{}` (lines 73-77); query credentials with the hard-coded path (line 81);
construct the client (lines 84-85, external); loop `subscribe_quotes` over
`symbols` (lines 89-91); evaluate `Thread(daemon=True, name="CryptoClient",
target=self.client.run()).start()` (lines 95-98). No statement translated
from the repository raises, so construction always completes. -/
def liveDataServerInit (keyfile database : String) (symbols : List String)
    (host : String) (port : Nat) : Except PyErr ServerInit :=
  Except.ok
    { keyfile := keyfile, database := database, host := host, port := port,
      data := [], credentialQuery := adminCredentialPath,
      subscribed := subscribeLoop symbols, spawn := constructorSpawnTrace }

/-- Whether an `Except` result is a success. -/
def exceptOk {ε α : Type} : Except ε α → Bool
  | Except.ok _ => true
  | Except.error _ => false

/-- A concrete quote for symbol `"BTC/USD"` with the field values named by
the specification's round-trip property: ask price 50000.5, ask size 0.1,
bid price 50000.0, bid size 0.2, timestamp 1700000000.0. -/
def cQBTC : Quote :=
  { symbol := "BTC/USD", timestamp := { mantissa := 17000000000, shift := 1 },
    ask_price := { mantissa := 500005, shift := 1 },
    ask_size := { mantissa := 1, shift := 1 },
    bid_price := { mantissa := 500000, shift := 1 },
    bid_size := { mantissa := 2, shift := 1 } }

/-- A concrete quote for a second, distinct symbol `"ETH/USD"`. -/
def cQETH : Quote :=
  { symbol := "ETH/USD", timestamp := { mantissa := 17000000010, shift := 1 },
    ask_price := { mantissa := 30002, shift := 1 },
    ask_size := { mantissa := 15, shift := 1 },
    bid_price := { mantissa := 30000, shift := 1 },
    bid_size := { mantissa := 25, shift := 1 } }

/-- The wire document the handler builds for one quote starting from an empty
`self.data`: the JSON image of the store after the event's update. -/
def wireDoc (q : Quote) : JVal :=
  jsonOfStore (mergeQuote [] q)

theorem dictGet_dictSet {α : Type} (m : List (String × α)) (k : String) (v : α) :
    dictGet (dictSet m k v) k = some v := by
  induction m with
  | nil => simp [dictSet, dictGet]
  | cons p rest ih =>
    obtain ⟨k', v'⟩ := p
    by_cases h : k' = k
    · simp [dictSet, dictGet, h]
    · simp [dictSet, dictGet, h, ih]

theorem mergeAll_LMD (m : List (String × Entry)) (qs : List Quote) :
    ∃ m', mergeAll [("Live Market Data", m)] qs = [("Live Market Data", m')] := by
  induction qs generalizing m with
  | nil => exact ⟨m, rfl⟩
  | cons q qs ih =>
    have h : mergeAll [("Live Market Data", m)] (q :: qs)
        = mergeAll [("Live Market Data", [(q.symbol, entryOf q)])] qs := by
      simp [mergeAll, mergeQuote, dictSet]
    rw [h]
    exact ih _

theorem mergeQuote_mergeAll_nil (qs : List Quote) (q : Quote) :
    mergeQuote (mergeAll [] qs) q
      = [("Live Market Data", [(q.symbol, entryOf q)])] := by
  cases qs with
  | nil => simp [mergeAll, mergeQuote, dictSet]
  | cons q0 qs =>
    have h : mergeAll [] (q0 :: qs)
        = mergeAll [("Live Market Data", [(q0.symbol, entryOf q0)])] qs := by
      simp [mergeAll, mergeQuote, dictSet]
    obtain ⟨m', hm⟩ := mergeAll_LMD [(q0.symbol, entryOf q0)] qs
    rw [h, hm]
    simp [mergeQuote, dictSet]

theorem sendBody_ok (st : Store) :
    sendBody { connectOk := true, sendOk := true } st initSendState
      = ({ sock := SockState.closedS, closeCalls := 2, closeTransitions := 1,
           sleeps := 1, sent := [serialize st] }, POutcome.ok PyVal.none) := rfl

theorem subscribeLoop_eq_map (symbols : List String) :
    subscribeLoop symbols = symbols.map String.toUpper := by
  have aux : ∀ (l : List String) (acc : List String),
      l.foldl subscribeStep acc = acc ++ l.map String.toUpper := by
    intro l
    induction l with
    | nil => intro acc; simp
    | cons a l ih =>
      intro acc
      simp [List.foldl_cons, subscribeStep, ih]
  simpa using aux symbols []

/-- C1 (counterexample): merging quotes for the two distinct symbols
`"BTC/USD"` then `"ETH/USD"` leaves a store whose `"Live Market Data"` entry
holds only the second symbol; the earlier symbol's entry is gone, refuting
the claim that after merging quotes for N distinct symbols the store contains
all N per-symbol entries. -/
theorem merge_two_symbols_drops_first :
    dictGet (mergeAll [] [cQBTC, cQETH]) "Live Market Data"
      = some [("ETH/USD", entryOf cQETH)] ∧
    (dictGet (mergeAll [] [cQBTC, cQETH]) "Live Market Data").bind
        (fun m => dictGet m "BTC/USD") = none :=
  ⟨rfl, rfl⟩

/-- C1 (amended): after any nonempty sequence of merged quotes, reading the
store returns under `"Live Market Data"` exactly the single entry for the
most recently merged quote's symbol — the handler's assignment replaces the
whole inner dictionary, so entries for earlier symbols are not retained. -/
theorem read_returns_only_last_merged_quote (st : Store) (qs : List Quote)
    (q : Quote) :
    dictGet (mergeAll st (qs ++ [q])) "Live Market Data"
      = some [(q.symbol, entryOf q)] := by
  have h : mergeAll st (qs ++ [q]) = mergeQuote (mergeAll st qs) q := by
    simp [mergeAll, List.foldl_append]
  rw [h, mergeQuote]
  exact dictGet_dictSet _ _ _

/-- C2: the constructor passes `target=self.client.run()` — a call, not a
callable — so Python evaluates `client.run` (the feed's run loop) eagerly in
the constructor's own foreground context, and the daemon thread started
afterwards receives only the call's return value and executes nothing. This
contradicts the claim that the constructor returns without itself executing
the feed's run loop. -/
theorem constructor_executes_feed_loop_in_foreground :
    Except.map (fun r => r.spawn)
        (liveDataServerInit "/server/credentials/admin.key"
          "/server/database/admin.db" ["BTC/USD"] "127.0.0.1" 65535)
      = Except.ok [(Ctx.foreground, "client.run")] ∧
    threadStartActions (evalArgActions runTargetExpr).2 = [] :=
  ⟨rfl, rfl⟩

/-- C3: when the connect step or the send step fails with a transport
exception, the handler does not return the error value: the `except` block's
call to `exception(...)` evaluates a name the module never imports, so the
invocation raises `NameError` instead (the `return error` statement is
unreachable). -/
theorem handler_transport_failure_raises_nameerror :
    (streamDataHandler { connectOk := false, sendOk := true } [] cQBTC).2.2
      = POutcome.exn (PyErr.nameError "exception") ∧
    (streamDataHandler { connectOk := true, sendOk := false } [] cQBTC).2.2
      = POutcome.exn (PyErr.nameError "exception") :=
  ⟨rfl, rfl⟩

/-- C4: on every exit path of the send attempt — success, connect failure,
and write failure — the socket ends closed and undergoes exactly one
open-to-closed transition (the explicit `server.close()` and the `with`
block's `__exit__` overlap on some paths, but closing an already-closed
socket is a no-op), so no connection remains open after the attempt. -/
theorem send_closes_connection_exactly_once (env : NetEnv) (st : Store)
    (q : Quote) :
    (streamDataHandler env st q).2.1.closeTransitions = 1 ∧
    (streamDataHandler env st q).2.1.sock = SockState.closedS := by
  cases env with
  | mk c s => cases c <;> cases s <;> exact ⟨rfl, rfl⟩

/-- C5: on a connect failure the send portion leaves the store exactly as the
merge step left it (identical to the success path's store, with nothing
written to the wire), but the failure is reported by raising
`NameError` — the `exception(...)` name is undefined — rather than by
returning the `RelayConnectError`-class value the claim describes. -/
theorem connect_failure_store_unchanged_but_raises :
    (streamDataHandler { connectOk := false, sendOk := true } [] cQETH).1
      = [("Live Market Data", [("ETH/USD", entryOf cQETH)])] ∧
    (streamDataHandler { connectOk := false, sendOk := true } [] cQETH).1
      = (streamDataHandler { connectOk := true, sendOk := true } [] cQETH).1 ∧
    (streamDataHandler { connectOk := false, sendOk := true } [] cQETH).2.1.sent
      = [] ∧
    (streamDataHandler { connectOk := false, sendOk := true } [] cQETH).2.2
      = POutcome.exn (PyErr.nameError "exception") :=
  ⟨rfl, rfl, rfl, rfl⟩

/-- C6 (counterexample): a send attempt whose write step fails still performs
the fixed pacing wait — `sleep(1)` sits in the `finally` block, which runs on
the write-failure path too — refuting the claim that a failing send attempt
does not perform the pacing wait. -/
theorem failed_write_still_performs_pacing_wait :
    (streamDataHandler { connectOk := true, sendOk := false } [] cQBTC).2.1.sleeps
      = 1 ∧
    (streamDataHandler { connectOk := true, sendOk := false } [] cQBTC).2.2
      = POutcome.exn (PyErr.nameError "exception") :=
  ⟨rfl, rfl⟩

/-- C6 (amended): the pacing wait runs exactly when the write stage is
entered — once on the success path and once on the write-failure path (both
run the `finally` block) — and not at all on the connect-failure path. -/
theorem pacing_wait_runs_after_write_stage (st : Store) (q : Quote) (b : Bool) :
    (streamDataHandler { connectOk := true, sendOk := true } st q).2.1.sleeps
      = 1 ∧
    (streamDataHandler { connectOk := true, sendOk := false } st q).2.1.sleeps
      = 1 ∧
    (streamDataHandler { connectOk := false, sendOk := b } st q).2.1.sleeps
      = 0 := by
  refine ⟨rfl, rfl, ?_⟩
  cases b <;> rfl

/-- C7: whatever sequence of events built the current store, a successful
send writes exactly one document, whose top-level key `"Live Market Data"`
maps to an object holding exactly one symbol entry — the just-updated
symbol — with the name, time, ask price, ask size, bid price and bid size
fields taken from that event. -/
theorem relay_sends_single_symbol_document (qs : List Quote) (q : Quote) :
    (streamDataHandler { connectOk := true, sendOk := true } (mergeAll [] qs) q).2.1.sent
      = [renderJVal (JVal.obj (JFields.cons "Live Market Data"
          (JVal.obj (JFields.cons q.symbol (jsonOfEntry (entryOf q)) JFields.nil))
          JFields.nil))] := by
  have h := mergeQuote_mergeAll_nil qs q
  simp only [streamDataHandler, h, sendBody_ok]
  rfl

set_option maxRecDepth 40000 in
/-- C8: serializing the wire document for the `"BTC/USD"` quote with ask
price 50000.5, ask size 0.1, bid price 50000.0, bid size 0.2 and timestamp
1700000000.0, then decoding the text with the generic JSON reader, yields the
document back unchanged, and its single symbol entry carries exactly those
field values. -/
theorem serialize_decode_roundtrip_btcusd :
    parseJson (renderJVal (wireDoc cQBTC)) = some (wireDoc cQBTC) ∧
    (jGet (wireDoc cQBTC) "Live Market Data").bind (fun j => jGet j "BTC/USD")
      = some (jsonOfEntry (entryOf cQBTC)) ∧
    jGet (jsonOfEntry (entryOf cQBTC)) "name" = some (JVal.str "BTC/USD") ∧
    jGet (jsonOfEntry (entryOf cQBTC)) "time"
      = some (JVal.num { mantissa := 17000000000, shift := 1 }) ∧
    jGet (jsonOfEntry (entryOf cQBTC)) "ask price"
      = some (JVal.num { mantissa := 500005, shift := 1 }) ∧
    jGet (jsonOfEntry (entryOf cQBTC)) "ask size"
      = some (JVal.num { mantissa := 1, shift := 1 }) ∧
    jGet (jsonOfEntry (entryOf cQBTC)) "bid price"
      = some (JVal.num { mantissa := 500000, shift := 1 }) ∧
    jGet (jsonOfEntry (entryOf cQBTC)) "bid size"
      = some (JVal.num { mantissa := 2, shift := 1 }) :=
  ⟨rfl, rfl, rfl, rfl, rfl, rfl, rfl, rfl⟩

/-- C9 (counterexample): constructing the server with an empty symbols list
succeeds — the subscribe loop performs no iterations and no
`ConfigurationError` (or any other failure) is raised — refuting the claim
that subscribing fails with `ConfigurationError` on an empty collection. -/
theorem empty_symbols_construction_succeeds :
    exceptOk (liveDataServerInit "/server/credentials/admin.key"
        "/server/database/admin.db" [] "127.0.0.1" 65535) = true ∧
    Except.map (fun r => r.subscribed)
        (liveDataServerInit "/server/credentials/admin.key"
          "/server/database/admin.db" [] "127.0.0.1" 65535)
      = Except.ok [] :=
  ⟨rfl, rfl⟩

/-- C9 (amended): the constructor performs no validation of the symbols
collection at all — for every list, empty or containing identifiers of any
shape, construction succeeds and each element is simply uppercased and
subscribed in order. -/
theorem subscription_performs_no_validation (keyfile database host : String)
    (port : Nat) (symbols : List String) :
    exceptOk (liveDataServerInit keyfile database symbols host port) = true ∧
    Except.map (fun r => r.subscribed)
        (liveDataServerInit keyfile database symbols host port)
      = Except.ok (symbols.map String.toUpper) := by
  refine ⟨rfl, ?_⟩
  simp [liveDataServerInit, subscribeLoop_eq_map, Except.map]

/-- C10: the credential query issued during construction always consults the
fixed path `"/server/database/admin/admin.db"` — the `keyfile` and `database`
constructor parameters have no effect on which credential store is
consulted. -/
theorem credential_query_ignores_parameters (k1 d1 k2 d2 host : String)
    (symbols : List String) (port : Nat) :
    Except.map (fun r => r.credentialQuery)
        (liveDataServerInit k1 d1 symbols host port)
      = Except.ok "/server/database/admin/admin.db" ∧
    Except.map (fun r => r.credentialQuery)
        (liveDataServerInit k1 d1 symbols host port)
      = Except.map (fun r => r.credentialQuery)
          (liveDataServerInit k2 d2 symbols host port) :=
  ⟨rfl, rfl⟩
